import Mathlib

/-!
# Verification of the bsl-track-server measurement service

A shallow embedding of `bsl_track_server/bsl.py` (validation layer,
persistence layer, and the route handlers) together with the table
created by the alembic migration `02dbe609b6f5`.  Decimal values are
embedded as exact rationals, dates and times as plain calendar records,
and the database as a list of rows threaded through each operation.
-/

/-- Calendar date (embeds `datetime.date`). -/
structure CalDate where
  year : Nat
  month : Nat
  day : Nat
deriving DecidableEq, Repr

/-- Time of day (embeds `datetime.time`). -/
structure ClockTime where
  hour : Nat
  minute : Nat
  second : Nat
deriving DecidableEq, Repr

/-- Allowed measurement types (embeds the `MeasurementTypes` enum:
`FASTING = "fasting"`, `RANDOM = "random"`). -/
inductive MeasurementTypes where
  | FASTING
  | RANDOM
deriving DecidableEq, Repr

/-- The string value of each enum member. -/
def MeasurementTypes.value : MeasurementTypes → String
  | .FASTING => "fasting"
  | .RANDOM => "random"

/-- Pydantic parsing of a string into the `MeasurementTypes` enum: an input
string is matched against the members' values exactly (pydantic enum
validation is by value and case-sensitive); anything else is a validation
error. -/
def parseMeasurementType (s : String) : Option MeasurementTypes :=
  if s = "fasting" then some .FASTING
  else if s = "random" then some .RANDOM
  else none

/-- A Python `Decimal` input value: a finite exact rational, an infinity, or
NaN. -/
inductive PyDecimal where
  | finite (q : ℚ)
  | infinite (neg : Bool)
  | nan
deriving DecidableEq, Repr

/-- One pydantic validation error: the field it concerns and the error
type tag. -/
structure FieldError where
  loc : String
  etype : String
deriving DecidableEq, Repr

/-- A candidate (unvalidated) measurement, as supplied in a request body.
`none` in a field means the field was omitted.  Mirrors the inputs that
reach `BslMeasurementSchema` in `bsl.py`. -/
structure RawMeasurement where
  id : Option ℤ := none
  bsl : Option PyDecimal := none
  type : Option String := none
  date : Option CalDate := none
  time : Option ClockTime := none

/-- A validated measurement: an instance of `BslMeasurementSchema`
(`bsl.py` lines 33-42).  `id` stays optional (`int | None = None`); `bsl`
is a finite decimal; `type` is a member of the enum; `date` and `time`
are present (the annotations `date: datetime.date` and
`time: datetime.time` carry no default, so pydantic treats both fields as
required). -/
structure BslMeasurementSchema where
  id : Option ℤ
  bsl : ℚ
  type : MeasurementTypes
  date : CalDate
  time : ClockTime
deriving DecidableEq, Repr

/-- Validation of the `bsl` field.  The source annotates the field as
`Annotated[Decimal, condecimal(ge=0, le=100, multiple_of=Decimal(0.1),
decimal_places=1, allow_inf_nan=False)]`.  `condecimal(...)` itself
returns an `Annotated[Decimal, ...]` alias; placed in the metadata
position of an outer `Annotated` it is not one of the metadata forms
pydantic recognises, and PEP 593 metadata that a consumer does not
recognise is ignored.  The effective core schema is therefore the plain
`Decimal` schema, which accepts every finite decimal and rejects only
infinities and NaN (error type `finite_number`).  The `ge`/`le`/
`multiple_of`/`decimal_places` bounds are never applied. -/
def bslField : Option PyDecimal → Except FieldError ℚ
  | none => .error ⟨"bsl", "missing"⟩
  | some (.finite q) => .ok q
  | some (.infinite _) => .error ⟨"bsl", "finite_number"⟩
  | some .nan => .error ⟨"bsl", "finite_number"⟩

/-- Validation of the `type` field: omitted means the declared default
`MeasurementTypes.FASTING`; a string must parse to an enum member by
value. -/
def typeField : Option String → Except FieldError MeasurementTypes
  | none => .ok .FASTING
  | some s =>
    match parseMeasurementType s with
    | some t => .ok t
    | none => .error ⟨"type", "enum"⟩

/-- Validation of the `date` field: required, no default. -/
def dateField : Option CalDate → Except FieldError CalDate
  | none => .error ⟨"date", "missing"⟩
  | some d => .ok d

/-- Validation of the `time` field: required, no default. -/
def timeField : Option ClockTime → Except FieldError ClockTime
  | none => .error ⟨"time", "missing"⟩
  | some t => .ok t

/-- The errors contributed by one field check. -/
def errsOf {α : Type} : Except FieldError α → List FieldError
  | .error e => [e]
  | .ok _ => []

/-- All validation errors of a candidate measurement, in field
declaration order (pydantic collects every failing field). -/
def validationErrors (raw : RawMeasurement) : List FieldError :=
  errsOf (bslField raw.bsl) ++ errsOf (typeField raw.type) ++
    errsOf (dateField raw.date) ++ errsOf (timeField raw.time)

/-- Pydantic validation of a candidate measurement against
`BslMeasurementSchema`: succeeds exactly when every field check succeeds,
otherwise reports the collected `ValidationError`. -/
def BslMeasurementSchema.validate (raw : RawMeasurement) :
    Except (List FieldError) BslMeasurementSchema :=
  match bslField raw.bsl, typeField raw.type, dateField raw.date,
      timeField raw.time with
  | .ok b, .ok t, .ok d, .ok tm => .ok ⟨raw.id, b, t, d, tm⟩
  | _, _, _, _ => .error (validationErrors raw)

/-- Modelled from the spec: the value constraint the specification states
for a measurement value — within `[0, 100]`, a multiple of `0.1`
(equivalently at most one decimal digit, for exact decimals), and finite
(finiteness is implicit for a rational).  Being a multiple of `1/10` is
rendered as the reduced denominator dividing `10`; the lemma
`specValueConstraint_multiple_iff` below checks this rendering.  This is
the spec-side predicate that the code's validation is compared against;
it is *not* the behaviour of the source. -/
def specValueConstraint (q : ℚ) : Prop :=
  0 ≤ q ∧ q ≤ 100 ∧ q.den ∣ 10

instance (q : ℚ) : Decidable (specValueConstraint q) := by
  unfold specValueConstraint
  infer_instance

/-- Sanity check of the rendering used in `specValueConstraint`: a
rational's reduced denominator divides `10` exactly when the value is an
integer multiple of `1/10`. -/
theorem specValueConstraint_multiple_iff (q : ℚ) :
    q.den ∣ 10 ↔ ∃ k : ℤ, q * 10 = (k : ℚ) := by
  constructor
  · intro h
    obtain ⟨c, hc⟩ := h
    refine ⟨q.num * c, ?_⟩
    have h1 : ((10 : ℚ)) = (q.den : ℚ) * (c : ℚ) := by
      exact_mod_cast congrArg (fun n : ℕ => (n : ℚ)) hc
    rw [h1, ← mul_assoc, Rat.mul_den_eq_num]
    push_cast
    ring
  · rintro ⟨k, hk⟩
    have hq : q = (k : ℚ) / 10 := by
      field_simp
      linarith [hk]
    have h2 : ((k : ℚ) / 10 : ℚ) = Rat.divInt k 10 := by
      rw [Rat.divInt_eq_div]
      norm_num
    rw [hq, h2]
    exact_mod_cast Rat.den_dvd k 10

/-- Modelled from the spec: the internal error kind raised by the store
layer (`DatabaseError`, defined in `bsl_track_server/database.py`, which
is not part of the sources at hand).  Per the spec it is "a single
internal error kind carrying a machine-readable tag and human message";
call sites in `bsl.py` pass a `message` always and an `error` tag only
sometimes, so the tag is optional here, `none` standing for the class
default. -/
structure DatabaseError where
  error : Option String
  message : String
deriving DecidableEq, Repr

/-- A stored row of the `bsls` table, i.e. an instance of the
SQLAlchemy `BslMeasurementModel` (`bsl.py` lines 51-60): a persisted
measurement always carries an integer `id`. -/
structure BslMeasurementModel where
  id : ℤ
  bsl : ℚ
  type : MeasurementTypes
  date : CalDate
  time : ClockTime
deriving DecidableEq, Repr

/-- The database state: the rows of the single `bsls` table. -/
structure DB where
  rows : List BslMeasurementModel
deriving DecidableEq, Repr

/-- Whether a row with the given id exists. -/
def DB.containsId (db : DB) (i : ℤ) : Bool :=
  db.rows.any (fun r => r.id == i)

/-- The largest id currently in use (`0` for an empty table); SQLite's
integer-primary-key autoincrement assigns `maxId + 1` to the next row. -/
def maxId (rows : List BslMeasurementModel) : ℤ :=
  rows.foldr (fun r acc => max r.id acc) 0

/-- Replace the first row whose id matches (the row found by
`select(cls).where(cls.id == measurement.id)`) with the overwritten
record. -/
def replaceFirstById (i : ℤ) (u : BslMeasurementModel) :
    List BslMeasurementModel → List BslMeasurementModel
  | [] => []
  | r :: rs => if r.id == i then u :: rs else r :: replaceFirstById i u rs

namespace BslMeasurementModel

/-- `BslMeasurementModel.list`: all rows. -/
def list (db : DB) : List BslMeasurementModel :=
  db.rows

/-- `BslMeasurementModel.read`: select the row with the given id; raise
`DatabaseError(error="MeasurementNotFound", ...)` when there is none. -/
def read (db : DB) (measurement_id : ℤ) :
    Except DatabaseError BslMeasurementModel :=
  match db.rows.find? (fun r => r.id == measurement_id) with
  | some record => .ok record
  | none =>
    .error ⟨some "MeasurementNotFound",
      s!"No measurement with the given id: {measurement_id}"⟩

/-- `BslMeasurementModel.create`: raise `DatabaseError` when the incoming
measurement carries an id (before touching the store); otherwise insert a
row built from the measurement's fields with a store-assigned id, commit,
and return the record as refreshed (re-read) after the write.  The
returned `DB` is the store afterwards — unchanged in the error case,
since the raise happens before `db.add`. -/
def create (db : DB) (m : BslMeasurementSchema) :
    Except DatabaseError BslMeasurementModel × DB :=
  match m.id with
  | some _ => (.error ⟨none, "ID should be null for new measurements"⟩, db)
  | none =>
    let record : BslMeasurementModel :=
      ⟨maxId db.rows + 1, m.bsl, m.type, m.date, m.time⟩
    (.ok record, ⟨db.rows ++ [record]⟩)

/-- `BslMeasurementModel.update`: raise when the measurement has no id;
select the row with that id and raise when absent; otherwise overwrite
every field of the found row (`for key, value in model_dump(): setattr`,
which covers `id`, `bsl`, `type`, `date`, `time`) and commit.  Both
raises happen before any mutation, so the store is unchanged on error. -/
def update (db : DB) (m : BslMeasurementSchema) :
    Except DatabaseError BslMeasurementModel × DB :=
  match m.id with
  | none =>
    (.error ⟨none, "ID should not be null for existing measurements"⟩, db)
  | some i =>
    match db.rows.find? (fun r => r.id == i) with
    | none => (.error ⟨none, "Measurement not found"⟩, db)
    | some _ =>
      let record : BslMeasurementModel := ⟨i, m.bsl, m.type, m.date, m.time⟩
      (.ok record, ⟨replaceFirstById i record db.rows⟩)

/-- `BslMeasurementModel.delete`: execute `DELETE ... WHERE id = ...` and
commit; deleting an absent id deletes no rows and raises nothing. -/
def delete (db : DB) (measurement_id : ℤ) : DB :=
  ⟨db.rows.filter (fun r => r.id != measurement_id)⟩

end BslMeasurementModel

/-- The outcome of a route handler: a successful response with a status
code and body, an `HTTPException` response, or a `DatabaseError` that
propagates out of the handler uncaught (surfaced by the framework as an
internal server error, not a 4xx client rejection). -/
inductive RouteResult (α : Type) where
  | success (code : Nat) (body : α)
  | httpError (code : Nat) (detail : String)
  | unhandled (e : DatabaseError)
deriving DecidableEq, Repr

/-- Whether a route outcome is a client-side (4xx) rejection. -/
def RouteResult.isClientError {α : Type} : RouteResult α → Bool
  | .httpError code _ => 400 ≤ code && code < 500
  | _ => false

/-- Route `GET /bsl`: list all measurements, status 200. -/
def list_measurements (db : DB) :
    RouteResult (List BslMeasurementModel) × DB :=
  (.success 200 (BslMeasurementModel.list db), db)

/-- Route `GET /bsl/{measurement_id}`: read one measurement; a
`DatabaseError` is caught and turned into a 404 `HTTPException`. -/
def get_measurement (db : DB) (measurement_id : ℤ) :
    RouteResult BslMeasurementModel × DB :=
  match BslMeasurementModel.read db measurement_id with
  | .ok result => (.success 200 result, db)
  | .error _ => (.httpError 404 "No measurement with that ID", db)

/-- Route `POST /bsl`: create a measurement, status 201 on success.  The
handler wraps `BslMeasurementModel.create` in no `try`/`except`, so a
`DatabaseError` propagates unhandled. -/
def create_measurement (db : DB) (measurement : BslMeasurementSchema) :
    RouteResult BslMeasurementModel × DB :=
  match BslMeasurementModel.create db measurement with
  | (.ok result, db') => (.success 201 result, db')
  | (.error e, db') => (.unhandled e, db')

/-- Route `PUT /bsl`: update a measurement, status 201 on success; any
`DatabaseError` is caught and turned into a 404 `HTTPException`. -/
def update_measurement (db : DB) (measurement : BslMeasurementSchema) :
    RouteResult BslMeasurementModel × DB :=
  match BslMeasurementModel.update db measurement with
  | (.ok result, db') => (.success 201 result, db')
  | (.error _, db') => (.httpError 404 "No measurement with that ID", db')

/-- Route `DELETE /bsl/{measurement_id}`: always succeeds (status 200,
empty body). -/
def delete_measurement (db : DB) (measurement_id : ℤ) :
    RouteResult Unit × DB :=
  (.success 200 (), BslMeasurementModel.delete db measurement_id)

/-- The column types appearing in the table definitions. -/
inductive ColType where
  | integer
  | decimalScale1
  | enumMeasurementTypes
  | date
  | time
deriving DecidableEq, Repr

/-- A column of a table definition: name, SQL type, and the modifiers the
two definitions use. -/
structure ColumnDef where
  name : String
  ctype : ColType
  primaryKey : Bool
  nullable : Bool
  serverDefaultNow : Bool
deriving DecidableEq, Repr

/-- The columns of the `bsls` table as created by the alembic migration
`02dbe609b6f5` (`upgrade()`): `id` integer primary key, `bsl`
DECIMAL(scale=1), `date` with server default `current_date()`, `time`
with server default `current_time()`.  No `type` column and no
`nullable=False` markers appear in the migration; a primary key is
implicitly non-nullable, the other columns default to nullable. -/
def migrationColumns : List ColumnDef :=
  [⟨"id", .integer, true, false, false⟩,
   ⟨"bsl", .decimalScale1, false, true, false⟩,
   ⟨"date", .date, false, true, true⟩,
   ⟨"time", .time, false, true, true⟩]

/-- The columns declared by the ORM model `BslMeasurementModel`
(`bsl.py` lines 56-60): `id` integer primary key, `bsl` DECIMAL(scale=1)
not null, `type` Enum(MeasurementTypes) not null, `date`/`time` not null
with server defaults `current_date()`/`current_time()`. -/
def modelColumns : List ColumnDef :=
  [⟨"id", .integer, true, false, false⟩,
   ⟨"bsl", .decimalScale1, false, false, false⟩,
   ⟨"type", .enumMeasurementTypes, false, false, false⟩,
   ⟨"date", .date, false, false, true⟩,
   ⟨"time", .time, false, false, true⟩]

/-- The database states reachable through the service: starting from the
empty table and applying the persistence operations, where every
measurement handed to `create` or `update` is the result of a successful
schema validation (as in the service, where route bodies are validated
before the handler runs).  `list` and `read` do not change the state. -/
inductive Reachable : DB → Prop where
  | empty : Reachable ⟨[]⟩
  | createStep (db : DB) (raw : RawMeasurement) (m : BslMeasurementSchema) :
      Reachable db → BslMeasurementSchema.validate raw = .ok m →
      Reachable (BslMeasurementModel.create db m).2
  | updateStep (db : DB) (raw : RawMeasurement) (m : BslMeasurementSchema) :
      Reachable db → BslMeasurementSchema.validate raw = .ok m →
      Reachable (BslMeasurementModel.update db m).2
  | deleteStep (db : DB) (i : ℤ) :
      Reachable db → Reachable (BslMeasurementModel.delete db i)

/-! ## Helper lemmas about the persistence primitives -/

theorem maxId_mem_le (rows : List BslMeasurementModel) (r : BslMeasurementModel)
    (hr : r ∈ rows) : r.id ≤ maxId rows := by
  induction rows with
  | nil => cases hr
  | cons a as ih =>
    rcases List.mem_cons.mp hr with h | h
    · subst h
      exact le_max_left _ _
    · exact le_trans (ih h) (le_max_right _ _)

theorem find?_fresh (rows : List BslMeasurementModel) :
    rows.find? (fun r => r.id == maxId rows + 1) = none := by
  rw [List.find?_eq_none]
  intro r hr
  simp only [beq_iff_eq]
  intro h
  have hle := maxId_mem_le rows r hr
  omega

theorem containsId_false_find?_none (db : DB) (i : ℤ)
    (h : db.containsId i = false) :
    db.rows.find? (fun r => r.id == i) = none := by
  rw [List.find?_eq_none]
  intro r hr
  unfold DB.containsId at h
  rw [List.any_eq_false] at h
  simp [h r hr]

theorem containsId_true_find?_some (db : DB) (i : ℤ)
    (h : db.containsId i = true) :
    ∃ r, db.rows.find? (fun x => x.id == i) = some r := by
  unfold DB.containsId at h
  rw [List.any_eq_true] at h
  obtain ⟨x, hx, hpx⟩ := h
  cases hf : db.rows.find? (fun x => x.id == i) with
  | some r => exact ⟨r, rfl⟩
  | none =>
    rw [List.find?_eq_none] at hf
    exact absurd hpx (hf x hx)

theorem find?_replaceFirstById (i : ℤ) (u : BslMeasurementModel)
    (hu : u.id = i) (l : List BslMeasurementModel) (r : BslMeasurementModel)
    (h : l.find? (fun x => x.id == i) = some r) :
    (replaceFirstById i u l).find? (fun x => x.id == i) = some u := by
  induction l with
  | nil => simp [List.find?] at h
  | cons a as ih =>
    cases hb : a.id == i with
    | true => simp [replaceFirstById, hb, List.find?, hu]
    | false =>
      simp only [List.find?, hb] at h
      simp [replaceFirstById, hb, List.find?, ih h]

theorem replaceFirstById_idem (i : ℤ) (u : BslMeasurementModel)
    (hu : u.id = i) (l : List BslMeasurementModel) :
    replaceFirstById i u (replaceFirstById i u l) = replaceFirstById i u l := by
  induction l with
  | nil => rfl
  | cons a as ih =>
    cases hb : a.id == i with
    | true => simp [replaceFirstById, hb, hu]
    | false => simp [replaceFirstById, hb, ih]

/-! ## Concrete inputs used by the claim theorems -/

def d0 : CalDate := ⟨2024, 9, 3⟩

def t0 : ClockTime := ⟨12, 0, 0⟩

/-- A candidate measurement with value 5.55 (two decimal digits). -/
def raw555 : RawMeasurement :=
  { bsl := some (.finite (mkRat 111 20)), type := some "fasting",
    date := some d0, time := some t0 }

/-- A candidate measurement with value 200 (out of the spec range). -/
def raw200 : RawMeasurement :=
  { bsl := some (.finite 200), type := some "fasting",
    date := some d0, time := some t0 }

/-- A candidate measurement with an infinite value. -/
def rawInf : RawMeasurement :=
  { bsl := some (.infinite false), type := some "fasting",
    date := some d0, time := some t0 }

/-- A candidate measurement that omits both `date` and `time`. -/
def rawNoDT : RawMeasurement :=
  { bsl := some (.finite (mkRat 11 2)), type := some "fasting" }

/-- A candidate measurement whose type string is upper-cased. -/
def rawUpper : RawMeasurement :=
  { bsl := some (.finite (mkRat 11 2)), type := some "FASTING",
    date := some d0, time := some t0 }

/-! ## Claims -/

/-- Claim C1: the claim states that validation succeeds exactly for finite
decimals in `[0, 100]` that are multiples of 0.1 with at most one decimal
digit, and fails with a `ValidationError` outside that set.  On the code
this is false: the `condecimal` bounds are metadata pydantic never
applies (they sit nested inside `Annotated`), so validation also accepts
5.55 (two decimal digits) and 200 (out of range); only the infinite/NaN
part of the claim holds.  This theorem evaluates the embedded validation
at those failing inputs. -/
theorem c1_value_constraints_not_enforced :
    BslMeasurementSchema.validate raw555 =
      .ok ⟨none, mkRat 111 20, .FASTING, d0, t0⟩ ∧
    ¬ specValueConstraint (mkRat 111 20) ∧
    BslMeasurementSchema.validate raw200 =
      .ok ⟨none, 200, .FASTING, d0, t0⟩ ∧
    ¬ specValueConstraint 200 ∧
    BslMeasurementSchema.validate rawInf =
      .error [⟨"bsl", "finite_number"⟩] :=
  ⟨rfl, by decide, rfl, by decide, rfl⟩

/-- Claim C2 (counterexample): a creation request omitting `date` and
`time` — the claim's own scenario `{value: 5.5, type: "fasting"}` — is
rejected by validation with `missing` errors on both fields, refuting the
claim that it succeeds with server-defaulted date/time. -/
theorem c2_counterexample_missing_date_time_rejected :
    BslMeasurementSchema.validate rawNoDT =
      .error [⟨"date", "missing"⟩, ⟨"time", "missing"⟩] := rfl

/-- Claim C2 (amended): `date` and `time` are required fields of the
schema — every creation request that omits either is rejected with a
validation error naming the missing field, before any store access; the
store-level current-date/current-time defaults are never exercised
through this path. -/
theorem c2_missing_date_or_time_rejected (raw : RawMeasurement)
    (h : raw.date = none ∨ raw.time = none) :
    ∃ errs, BslMeasurementSchema.validate raw = .error errs ∧
      (FieldError.mk "date" "missing" ∈ errs ∨
        FieldError.mk "time" "missing" ∈ errs) := by
  rcases h with h | h
  · have hd : dateField raw.date = .error ⟨"date", "missing"⟩ := by
      rw [h]
      rfl
    unfold BslMeasurementSchema.validate
    split
    · rename_i b t d tm heqb heqt heqd heqtm
      rw [hd] at heqd
      cases heqd
    · refine ⟨validationErrors raw, rfl, Or.inl ?_⟩
      unfold validationErrors
      rw [hd]
      simp [errsOf]
  · have ht : timeField raw.time = .error ⟨"time", "missing"⟩ := by
      rw [h]
      rfl
    unfold BslMeasurementSchema.validate
    split
    · rename_i b t d tm heqb heqt heqd heqtm
      rw [ht] at heqtm
      cases heqtm
    · refine ⟨validationErrors raw, rfl, Or.inr ?_⟩
      unfold validationErrors
      rw [ht]
      simp [errsOf]

/-- Claim C2 (witness): the amended theorem applied to the concrete
request lacking `date` and `time`. -/
theorem c2_witness :
    (rawNoDT.date = none ∨ rawNoDT.time = none) ∧
    (∃ errs, BslMeasurementSchema.validate rawNoDT = .error errs ∧
      (FieldError.mk "date" "missing" ∈ errs ∨
        FieldError.mk "time" "missing" ∈ errs)) :=
  ⟨Or.inl rfl, c2_missing_date_or_time_rejected rawNoDT (Or.inl rfl)⟩

/-- Claim C3: the claim states that the migration creates exactly the
columns of the ORM model.  On the code this is false: the ORM model
declares a non-nullable enumerated `type` column (and `nullable=False`
on `bsl`, `date`, `time`), while the migration's `create_table` emits
only `id`, `bsl`, `date`, `time`, all nullable apart from the primary
key.  This theorem evaluates both embedded column lists. -/
theorem c3_migration_misses_type_column :
    migrationColumns.map ColumnDef.name = ["id", "bsl", "date", "time"] ∧
    modelColumns.map ColumnDef.name = ["id", "bsl", "type", "date", "time"] ∧
    migrationColumns ≠ modelColumns ∧
    (∀ c ∈ migrationColumns, c.name ≠ "type") ∧
    (∃ c ∈ modelColumns,
      c.name = "type" ∧ c.ctype = .enumMeasurementTypes ∧
        c.nullable = false) := by
  refine ⟨rfl, rfl, by decide, by decide, by decide⟩

/-- Claim C10: enum parsing of the measurement type is by value and
case-sensitive: exactly the strings `"fasting"` and `"random"` are
accepted, and any other string — including `"FASTING"` — fails schema
validation with an `enum` error rather than being coerced. -/
theorem c10_type_parsing_case_sensitive :
    (∀ s : String,
      (parseMeasurementType s).isSome = true ↔ (s = "fasting" ∨ s = "random")) ∧
    parseMeasurementType "fasting" = some .FASTING ∧
    parseMeasurementType "random" = some .RANDOM ∧
    parseMeasurementType "FASTING" = none ∧
    BslMeasurementSchema.validate rawUpper = .error [⟨"type", "enum"⟩] := by
  refine ⟨?_, rfl, rfl, rfl, rfl⟩
  intro s
  unfold parseMeasurementType
  by_cases h1 : s = "fasting" <;> by_cases h2 : s = "random" <;>
    simp [h1, h2]

/-- A validated measurement that carries an id (used against create). -/
def mWithId : BslMeasurementSchema := ⟨some 1, mkRat 11 2, .FASTING, d0, t0⟩

/-- A validated measurement without an id. -/
def mNoId : BslMeasurementSchema := ⟨none, mkRat 11 2, .FASTING, d0, t0⟩

/-- A validated measurement whose id 999 is absent from the store. -/
def mWithId999 : BslMeasurementSchema := ⟨some 999, mkRat 11 2, .FASTING, d0, t0⟩

/-- A stored row with id 1. -/
def row1 : BslMeasurementModel := ⟨1, mkRat 11 2, .FASTING, d0, t0⟩

/-- Claim C4 (counterexample): create on a measurement with a non-null id
raises the invalid-request database error, but the create route wraps the
call in no `try`/`except`, so the outcome is the error propagating
unhandled — not a client-side (4xx) rejection as the claim states. -/
theorem c4_counterexample_unhandled_not_client_error :
    (create_measurement ⟨[]⟩ mWithId).1 =
      .unhandled ⟨none, "ID should be null for new measurements"⟩ ∧
    (create_measurement ⟨[]⟩ mWithId).1.isClientError = false :=
  ⟨rfl, rfl⟩

/-- Claim C4 (amended): for every validated measurement whose id field is
non-null, create raises the invalid-request database error before any
store access and performs no write (the store is returned unchanged);
the error propagates out of the create route as an unhandled internal
failure, not as a client-side rejection. -/
theorem c4_create_with_id_no_write (db : DB) (m : BslMeasurementSchema)
    (i : ℤ) (h : m.id = some i) :
    BslMeasurementModel.create db m =
      (.error ⟨none, "ID should be null for new measurements"⟩, db) ∧
    create_measurement db m =
      (.unhandled ⟨none, "ID should be null for new measurements"⟩, db) ∧
    (create_measurement db m).1.isClientError = false := by
  have hc : BslMeasurementModel.create db m =
      (.error ⟨none, "ID should be null for new measurements"⟩, db) := by
    unfold BslMeasurementModel.create
    rw [h]
  have hr : create_measurement db m =
      (.unhandled ⟨none, "ID should be null for new measurements"⟩, db) := by
    unfold create_measurement
    rw [hc]
  exact ⟨hc, hr, by rw [hr]; rfl⟩

/-- Claim C4 (witness): the amended theorem at a concrete input. -/
theorem c4_witness :
    mWithId.id = some 1 ∧
    create_measurement ⟨[]⟩ mWithId =
      (.unhandled ⟨none, "ID should be null for new measurements"⟩, ⟨[]⟩) :=
  ⟨rfl, (c4_create_with_id_no_write ⟨[]⟩ mWithId 1 rfl).2.1⟩

/-- Claim C5: update with a null id fails with the invalid-request
database error; update with an id absent from the store fails with the
not-found database error (a distinct error), which the update route
surfaces as a 404 not-found response; in both cases the store is
returned unchanged (no write). -/
theorem c5_update_failures (db : DB) (m : BslMeasurementSchema) :
    (m.id = none →
      BslMeasurementModel.update db m =
        (.error ⟨none, "ID should not be null for existing measurements"⟩, db) ∧
      update_measurement db m =
        (.httpError 404 "No measurement with that ID", db)) ∧
    (∀ i : ℤ, m.id = some i → db.containsId i = false →
      BslMeasurementModel.update db m =
        (.error ⟨none, "Measurement not found"⟩, db) ∧
      update_measurement db m =
        (.httpError 404 "No measurement with that ID", db)) ∧
    (⟨none, "ID should not be null for existing measurements"⟩ : DatabaseError) ≠
      ⟨none, "Measurement not found"⟩ := by
  refine ⟨?_, ?_, by simp⟩
  · intro h
    have hu : BslMeasurementModel.update db m =
        (.error ⟨none, "ID should not be null for existing measurements"⟩, db) := by
      unfold BslMeasurementModel.update
      rw [h]
    exact ⟨hu, by unfold update_measurement; rw [hu]⟩
  · intro i h hc
    have hf := containsId_false_find?_none db i hc
    have hu : BslMeasurementModel.update db m =
        (.error ⟨none, "Measurement not found"⟩, db) := by
      unfold BslMeasurementModel.update
      rw [h]
      dsimp only
      rw [hf]
    exact ⟨hu, by unfold update_measurement; rw [hu]⟩

/-- Claim C5 (witness): the theorem at concrete inputs — a measurement
with a null id, and one whose id 999 is not in the (empty) store. -/
theorem c5_witness :
    mNoId.id = none ∧
    update_measurement ⟨[]⟩ mNoId =
      (.httpError 404 "No measurement with that ID", ⟨[]⟩) ∧
    mWithId999.id = some 999 ∧
    (⟨[]⟩ : DB).containsId 999 = false ∧
    update_measurement ⟨[]⟩ mWithId999 =
      (.httpError 404 "No measurement with that ID", ⟨[]⟩) :=
  ⟨rfl, ((c5_update_failures ⟨[]⟩ mNoId).1 rfl).2, rfl, rfl,
    ((c5_update_failures ⟨[]⟩ mWithId999).2.1 999 rfl rfl).2⟩

/-- Claim C6: delete is idempotent — both deletions of the same id return
the success response, the second deletion leaves the store as the first
left it, deleting an id absent from the store leaves the store unchanged,
and a read of a deleted id yields the measurement-not-found error. -/
theorem c6_delete_idempotent (db : DB) (mid : ℤ) :
    (delete_measurement db mid).1 = .success 200 () ∧
    (delete_measurement (delete_measurement db mid).2 mid).1 =
      .success 200 () ∧
    (delete_measurement (delete_measurement db mid).2 mid).2 =
      (delete_measurement db mid).2 ∧
    (db.containsId mid = false → (delete_measurement db mid).2 = db) ∧
    BslMeasurementModel.read (delete_measurement db mid).2 mid =
      .error ⟨some "MeasurementNotFound",
        s!"No measurement with the given id: {mid}"⟩ := by
  refine ⟨rfl, rfl, ?_, ?_, ?_⟩
  · unfold delete_measurement BslMeasurementModel.delete
    simp only
    congr 1
    apply List.filter_eq_self.mpr
    intro a ha
    exact (List.mem_filter.mp ha).2
  · intro h
    unfold delete_measurement BslMeasurementModel.delete
    simp only
    have hself : db.rows.filter (fun r => r.id != mid) = db.rows := by
      apply List.filter_eq_self.mpr
      intro a ha
      unfold DB.containsId at h
      rw [List.any_eq_false] at h
      simpa using h a ha
    rw [hself]
  · unfold delete_measurement BslMeasurementModel.read
      BslMeasurementModel.delete
    simp only
    have hnone : (db.rows.filter (fun r => r.id != mid)).find?
        (fun r => r.id == mid) = none := by
      rw [List.find?_eq_none]
      intro a ha
      simpa using (List.mem_filter.mp ha).2
    rw [hnone]

/-- Claim C6 (witness): the theorem at a concrete store and a concrete
non-existent id. -/
theorem c6_witness :
    (⟨[row1]⟩ : DB).containsId 999 = false ∧
    (delete_measurement ⟨[row1]⟩ 999).2 = ⟨[row1]⟩ ∧
    (delete_measurement ⟨[row1]⟩ 999).1 = .success 200 () :=
  ⟨rfl, (c6_delete_idempotent ⟨[row1]⟩ 999).2.2.2.1 rfl,
    (c6_delete_idempotent ⟨[row1]⟩ 999).1⟩

/-- Claim C7: for every validated measurement without an id, create
inserts a row carrying the measurement's fields under a freshly assigned
id, returns that row as re-read from the store after the write, and a
subsequent read of the returned id yields exactly the same record. -/
theorem c7_create_then_read (db : DB) (m : BslMeasurementSchema)
    (h : m.id = none) :
    ∃ rec db',
      BslMeasurementModel.create db m = (.ok rec, db') ∧
      BslMeasurementModel.read db' rec.id = .ok rec ∧
      create_measurement db m = (.success 201 rec, db') ∧
      rec.bsl = m.bsl ∧ rec.type = m.type ∧ rec.date = m.date ∧
        rec.time = m.time := by
  have hc : BslMeasurementModel.create db m =
      (.ok ⟨maxId db.rows + 1, m.bsl, m.type, m.date, m.time⟩,
        ⟨db.rows ++ [⟨maxId db.rows + 1, m.bsl, m.type, m.date, m.time⟩]⟩) := by
    unfold BslMeasurementModel.create
    rw [h]
  refine ⟨⟨maxId db.rows + 1, m.bsl, m.type, m.date, m.time⟩,
    ⟨db.rows ++ [⟨maxId db.rows + 1, m.bsl, m.type, m.date, m.time⟩]⟩,
    hc, ?_, ?_, rfl, rfl, rfl, rfl⟩
  · unfold BslMeasurementModel.read
    simp only
    rw [List.find?_append, find?_fresh]
    simp [List.find?]
  · unfold create_measurement
    rw [hc]

/-- Claim C7 (witness): the theorem at a concrete measurement and the
empty store. -/
theorem c7_witness :
    mNoId.id = none ∧
    ∃ rec db',
      BslMeasurementModel.create ⟨[]⟩ mNoId = (.ok rec, db') ∧
      BslMeasurementModel.read db' rec.id = .ok rec ∧
      create_measurement ⟨[]⟩ mNoId = (.success 201 rec, db') ∧
      rec.bsl = mNoId.bsl ∧ rec.type = mNoId.type ∧
        rec.date = mNoId.date ∧ rec.time = mNoId.time :=
  ⟨rfl, c7_create_then_read ⟨[]⟩ mNoId rfl⟩

/-- Claim C8: update is idempotent — for a validated measurement whose id
exists in the store, applying the same update twice yields the same
stored state as applying it once. -/
theorem c8_update_idempotent (db : DB) (m : BslMeasurementSchema)
    (i : ℤ) (h : m.id = some i) (hc : db.containsId i = true) :
    (BslMeasurementModel.update
        (BslMeasurementModel.update db m).2 m).2 =
      (BslMeasurementModel.update db m).2 := by
  obtain ⟨r, hr⟩ := containsId_true_find?_some db i hc
  have hu : BslMeasurementModel.update db m =
      (.ok ⟨i, m.bsl, m.type, m.date, m.time⟩,
        ⟨replaceFirstById i ⟨i, m.bsl, m.type, m.date, m.time⟩ db.rows⟩) := by
    unfold BslMeasurementModel.update
    rw [h]
    dsimp only
    rw [hr]
  rw [hu]
  have hr2 := find?_replaceFirstById i
    ⟨i, m.bsl, m.type, m.date, m.time⟩ rfl db.rows r hr
  unfold BslMeasurementModel.update
  rw [h]
  dsimp only
  rw [hr2]
  simp [replaceFirstById_idem i ⟨i, m.bsl, m.type, m.date, m.time⟩ rfl]

/-- A full-overwrite update of row 1. -/
def mUp : BslMeasurementSchema := ⟨some 1, mkRat 7 1, .RANDOM, d0, t0⟩

/-- Claim C8 (witness): the theorem at a concrete store containing id 1
and a concrete update of that id. -/
theorem c8_witness :
    mUp.id = some 1 ∧
    (⟨[row1]⟩ : DB).containsId 1 = true ∧
    (BslMeasurementModel.update
        (BslMeasurementModel.update ⟨[row1]⟩ mUp).2 mUp).2 =
      (BslMeasurementModel.update ⟨[row1]⟩ mUp).2 :=
  ⟨rfl, rfl, c8_update_idempotent ⟨[row1]⟩ mUp 1 rfl rfl⟩

/-- The measurement with the out-of-range value 200, as accepted by the
schema validation. -/
def m200 : BslMeasurementSchema := ⟨none, 200, .FASTING, d0, t0⟩

/-- The store after creating `m200` starting from the empty store. -/
def db200 : DB := (BslMeasurementModel.create ⟨[]⟩ m200).2

/-- Claim C9: the claim states every stored measurement satisfies the
range/precision constraint on its value (besides a non-null id and an
enumerated type).  The id and type parts hold by construction (every
stored row carries an integer id and an enum member), but the value part
is false on the code: validation does not enforce the condecimal bounds
(see C1), so a validated create can store the value 200.  This theorem
exhibits a reachable store, obtained from the empty store by one create
of a successfully validated request, containing a row whose value
violates the constraint. -/
theorem c9_reachable_store_violates_value_constraint :
    BslMeasurementSchema.validate raw200 = .ok m200 ∧
    Reachable db200 ∧
    db200.rows = [⟨1, 200, .FASTING, d0, t0⟩] ∧
    ∃ r ∈ db200.rows, ¬ specValueConstraint r.bsl := by
  refine ⟨rfl,
    Reachable.createStep ⟨[]⟩ raw200 m200 Reachable.empty rfl, ?_, ?_⟩
  · decide
  · exact ⟨⟨1, 200, .FASTING, d0, t0⟩, by decide, by decide⟩
